import Mathlib

/-!
Shallow embedding of the loadcell repository: two Arduino sketches reading
HX711 load-cell bridges and emitting CSV lines over serial.

The sketches' side effects (serial writes, delays, driver calls) are modelled
as an explicit event trace; each sketch's setup() and loop() become pure
functions from an environment (driver readiness, raw conversion values, the
millis() clock) to the trace of one invocation.
-/

/-- One observable effect of the program: serial initialisation, binding a
channel's driver to its pins, a blocking delay, a tare() call, one averaged
read of a channel (with its batch size), a read of the millis() clock, or a
write of bytes to the serial sink. -/
inductive Ev where
  | beginSerial (baud : Nat)
  | beginPins (ch dout sck : Nat)
  | delayMs (ms : Nat)
  | tare (ch : Nat)
  | readAvg (ch n : Nat)
  | readMillis
  | write (s : String)
deriving DecidableEq

def Ev.isWrite : Ev → Bool
  | .write _ => true
  | _ => false

def Ev.isTare : Ev → Bool
  | .tare _ => true
  | _ => false

def Ev.isDelay : Ev → Bool
  | .delayMs _ => true
  | _ => false

def Ev.isReadAvg : Ev → Bool
  | .readAvg _ _ => true
  | _ => false

def Ev.isReadMillis : Ev → Bool
  | .readMillis => true
  | _ => false

def Ev.isBeginPins : Ev → Bool
  | .beginPins _ _ _ => true
  | _ => false

/-- The line terminator appended by Serial.println. -/
def newline : String := "\n"

/-- Serial.println(s): one write of s followed by the line terminator. -/
def println (s : String) : Ev := Ev.write (s ++ newline)

/-- The byte strings written to the serial sink along a trace, in order. -/
def writes (tr : List Ev) : List String :=
  tr.filterMap (fun ev => match ev with | Ev.write s => some s | _ => none)

/-- All bytes written to the serial sink along a trace. -/
def output (tr : List Ev) : String := String.join (writes tr)

/-- Modelled from the spec: the HX711 driver's read loop (not part of this
repository) performs n successive raw conversions and accumulates their sum;
readSum raws n is the sum of raw conversions 0 .. n-1. -/
def readSum (raws : Nat → Int) : Nat → Int
  | 0 => 0
  | n + 1 => readSum raws n + raws n

/-- Modelled from the spec: the HX711 driver's read_average(n) (not part of
this repository) returns the arithmetic mean of n successive raw conversions,
with the division truncated toward zero as C long division is. -/
def read_average (raws : Nat → Int) (n : Nat) : Int :=
  Int.tdiv (readSum raws n) n

/-- Modelled from the spec: the fractional digits printed by the Arduino
core's float printing (not part of this repository) — repeatedly multiply the
remainder by 10 and print its integer part. -/
def fracDigits (r : ℚ) : Nat → String
  | 0 => ""
  | d + 1 =>
    let r10 := r * 10
    let digit : Int := ⌊r10⌋
    toString digit ++ fracDigits (r10 - (digit : ℚ)) d

/-- Modelled from the spec: the Arduino core's Serial.println(x, digits)
formatting of a float (not part of this repository) — round to the requested
number of decimals by adding half an ulp of the last printed digit, print the
integer part, a decimal point, then the fractional digits. -/
def printFloat (number : ℚ) (digits : Nat) : String :=
  let sign := if number < 0 then "-" else ""
  let m := if number < 0 then -number else number
  let n := m + 1 / (2 * 10 ^ digits)
  let ip : Int := ⌊n⌋
  let rem := n - (ip : ℚ)
  sign ++ toString ip ++ (if digits > 0 then "." ++ fracDigits rem digits else "")

namespace Single

/-- HX711 DAT pin of the single-channel sketch. -/
def HX_DOUT_PIN : Nat := 8

/-- HX711 CLK pin of the single-channel sketch. -/
def HX_SCK_PIN : Nat := 9

/-- The hardcoded calibration factor of the single-channel sketch. -/
def calibration_factor : ℚ := 1000

/-- Environment of one single-channel loop() invocation: whether the driver
reports a conversion ready, the stream of raw conversion values it would
deliver, and the millis() clock value. -/
structure Env where
  ready : Bool
  raws : Nat → Int
  millis : Nat

/-- setup() of the single-channel sketch: serial at 115200, bind the driver
to pins 8/9, delay 1000 ms, tare, print the CSV header. -/
def setup : List Ev :=
  [Ev.beginSerial 115200,
   Ev.beginPins 0 HX_DOUT_PIN HX_SCK_PIN,
   Ev.delayMs 1000,
   Ev.tare 0,
   println ("millis,grams")]

/-- loop() of the single-channel sketch. It takes the current value of the
global calibration_factor and returns its value after the iteration together
with the iteration's trace: return immediately if the driver is not ready,
otherwise read a 10-sample average, convert to grams, and print
millis,grams with 3 decimals. -/
def loop (factor : ℚ) (e : Env) : ℚ × List Ev :=
  if !e.ready then (factor, [])
  else
    let raw : Int := read_average e.raws 10
    let grams : ℚ := (raw : ℚ) / factor
    (factor,
      [Ev.readAvg 0 10,
       Ev.readMillis,
       Ev.write (toString e.millis),
       Ev.write (","),
       println (printFloat grams 3)])

/-- Modelled from the spec: the Arduino runtime (not part of this repository)
runs setup() exactly once and then loop() repeatedly; a finite prefix of a
run is setup's trace followed by the traces of the loop iterations. -/
def run (factor : ℚ) (es : List Env) : List Ev :=
  setup ++ (es.map (fun e => (loop factor e).2)).flatten

end Single

namespace Multi

/-- HX711 DAT pins of the 4-channel sketch. -/
def DOUT_PINS : List Nat := [2, 4, 6, 8]

/-- HX711 CLK pins of the 4-channel sketch. -/
def SCK_PINS : List Nat := [3, 5, 7, 9]

/-- Environment of one 4-channel loop() invocation: per-channel readiness,
per-channel streams of raw conversion values, and the millis() clock. -/
structure Env where
  ready : Nat → Bool
  raws : Nat → Nat → Int
  millis : Nat

/-- The readiness check of the 4-channel loop(): scan channels 0..3 and
stop at the first one that is not ready. -/
def all_ready (e : Env) : Bool :=
  (List.range 4).all (fun i => e.ready i)

/-- setup() of the 4-channel sketch: serial at 115200, bind each of the four
drivers to its pins, delay 2000 ms, tare all four channels, print the CSV
header. -/
def setup : List Ev :=
  [Ev.beginSerial 115200]
    ++ (List.range 4).map (fun i => Ev.beginPins i (DOUT_PINS.getD i 0) (SCK_PINS.getD i 0))
    ++ [Ev.delayMs 2000]
    ++ (List.range 4).map (fun i => Ev.tare i)
    ++ [println ("millis,raw_ch1,raw_ch2,raw_ch3,raw_ch4")]

/-- loop() of the 4-channel sketch: return immediately unless every channel
is ready; otherwise print millis, then for each channel read a 5-sample
average and print a comma and the raw value, finish the line, and delay
50 ms. -/
def loop (e : Env) : List Ev :=
  if !all_ready e then []
  else
    [Ev.readMillis, Ev.write (toString e.millis)]
      ++ (List.range 4).flatMap (fun i =>
           [Ev.readAvg i 5,
            Ev.write (","),
            Ev.write (toString (read_average (e.raws i) 5))])
      ++ [Ev.write newline, Ev.delayMs 50]

/-- Modelled from the spec: the Arduino runtime (not part of this repository)
runs setup() exactly once and then loop() repeatedly; a finite prefix of a
run is setup's trace followed by the traces of the loop iterations. -/
def run (es : List Env) : List Ev :=
  setup ++ (es.map loop).flatten

end Multi

/-- An environment of the 4-channel sketch in which every channel is ready
and channel i's raw conversions are all 100 * (i + 1), so the 5-sample
averages are 100, 200, 300, 400. -/
def env4all : Multi.Env :=
  { ready := fun _ => true
    raws := fun i _ => ((100 * (i + 1) : Nat) : Int)
    millis := 12345 }

/-- An environment of the 4-channel sketch with readiness pattern
[true, false, true, true]. -/
def env4partial : Multi.Env :=
  { ready := fun i => i != 1
    raws := fun i _ => ((100 * (i + 1) : Nat) : Int)
    millis := 12345 }

/-- A ready environment of the single-channel sketch whose raw conversions
are all 4000, so the 10-sample average is 4000. -/
def env1ready : Single.Env :=
  { ready := true
    raws := fun _ => 4000
    millis := 77 }

/-- A not-ready environment of the single-channel sketch. -/
def env1idle : Single.Env :=
  { ready := false
    raws := fun _ => 4000
    millis := 77 }

/-- Appending traces appends their serial output. -/
theorem writes_append (a b : List Ev) : writes (a ++ b) = writes a ++ writes b :=
  List.filterMap_append a b _

/-- A flattened list of traces, each free of events matching p, is free of
events matching p. -/
theorem countP_flatten_zero (p : Ev → Bool) (L : List (List Ev))
    (h : ∀ l ∈ L, l.countP p = 0) : L.flatten.countP p = 0 := by
  induction L with
  | nil => rfl
  | cons a t ih =>
      rw [show (a :: t).flatten = a ++ t.flatten from rfl, List.countP_append,
        h a (by simp), ih (fun l hl => h l (by simp [hl]))]

/-- No single-channel loop iteration tares. -/
theorem single_loop_no_tare (f : ℚ) (e : Single.Env) :
    (Single.loop f e).2.countP Ev.isTare = 0 := by
  cases h : e.ready <;> simp only [Single.loop, h] <;> rfl

/-- No single-channel loop iteration delays. -/
theorem single_loop_no_delay (f : ℚ) (e : Single.Env) :
    (Single.loop f e).2.countP Ev.isDelay = 0 := by
  cases h : e.ready <;> simp only [Single.loop, h] <;> rfl

/-- No single-channel loop iteration re-binds pins. -/
theorem single_loop_no_begin (f : ℚ) (e : Single.Env) :
    (Single.loop f e).2.countP Ev.isBeginPins = 0 := by
  cases h : e.ready <;> simp only [Single.loop, h] <;> rfl

/-- No multi-channel loop iteration tares. -/
theorem multi_loop_no_tare (e : Multi.Env) :
    (Multi.loop e).countP Ev.isTare = 0 := by
  cases h : Multi.all_ready e <;> simp only [Multi.loop, h] <;> rfl

/-- No multi-channel loop iteration re-binds pins. -/
theorem multi_loop_no_begin (e : Multi.Env) :
    (Multi.loop e).countP Ev.isBeginPins = 0 := by
  cases h : Multi.all_ready e <;> simp only [Multi.loop, h] <;> rfl

/-- Claim C1: a Frame is emitted iff at the readiness check every channel is
ready; a not-ready iteration produces no events at all (hence no output bytes
and no sampler reads), and a ready iteration performs all N sampler reads and
writes a full line, never a partial frame. -/
theorem frame_iff_all_ready :
    (∀ e : Multi.Env, ((Multi.loop e).countP Ev.isWrite ≠ 0 ↔ Multi.all_ready e = true)) ∧
    (∀ e : Multi.Env, Multi.all_ready e = false → Multi.loop e = []) ∧
    (∀ e : Multi.Env, Multi.all_ready e = true →
        (Multi.loop e).countP Ev.isReadAvg = 4 ∧ (Multi.loop e).countP Ev.isWrite = 10) ∧
    (∀ (f : ℚ) (e : Single.Env),
        ((Single.loop f e).2.countP Ev.isWrite ≠ 0 ↔ e.ready = true)) ∧
    (∀ (f : ℚ) (e : Single.Env), e.ready = false → (Single.loop f e).2 = []) ∧
    (∀ (f : ℚ) (e : Single.Env), e.ready = true →
        (Single.loop f e).2.countP Ev.isReadAvg = 1 ∧
        (Single.loop f e).2.countP Ev.isWrite = 3) := by
  refine ⟨fun e => ?_, fun e h => ?_, fun e h => ?_, fun f e => ?_, fun f e h => ?_,
    fun f e h => ?_⟩
  · cases h : Multi.all_ready e
    · have hz : (Multi.loop e).countP Ev.isWrite = 0 := by
        simp only [Multi.loop, h]; rfl
      rw [hz]; simp
    · have hc : (Multi.loop e).countP Ev.isWrite = 10 := by
        simp only [Multi.loop, h]; rfl
      rw [hc]; simp
  · simp only [Multi.loop, h]; rfl
  · constructor <;> (simp only [Multi.loop, h]; rfl)
  · cases h : e.ready
    · have hz : (Single.loop f e).2.countP Ev.isWrite = 0 := by
        simp only [Single.loop, h]; rfl
      rw [hz]; simp
    · have hc : (Single.loop f e).2.countP Ev.isWrite = 3 := by
        simp only [Single.loop, h]; rfl
      rw [hc]; simp
  · simp only [Single.loop, h]; rfl
  · constructor <;> (simp only [Single.loop, h]; rfl)

/-- Witness for C1 at concrete environments. -/
theorem frame_iff_all_ready_witness :
    Multi.loop env4partial = [] ∧
    (Multi.loop env4all).countP Ev.isReadAvg = 4 ∧
    (Single.loop Single.calibration_factor env1idle).2 = [] ∧
    (Single.loop Single.calibration_factor env1ready).2.countP Ev.isReadAvg = 1 :=
  ⟨frame_iff_all_ready.2.1 env4partial (by decide),
   (frame_iff_all_ready.2.2.1 env4all (by decide)).1,
   frame_iff_all_ready.2.2.2.2.1 Single.calibration_factor env1idle rfl,
   (frame_iff_all_ready.2.2.2.2.2 Single.calibration_factor env1ready rfl).1⟩

/-- The accumulated sum of n successive raw reads is the sum of exactly the
first n raw values. -/
theorem readSum_eq_sum (raws : Nat → Int) (n : Nat) :
    readSum raws n = ((List.range n).map raws).sum := by
  induction n with
  | zero => rfl
  | succ n ih => simp [readSum, List.range_succ, ih]

/-- Claim C2: per emitted Frame each channel contributes exactly one sampler
invocation — batch 10 in the single-channel sketch, batch 5 per channel in
the multi-channel sketch — and for every batch size B ≥ 1 the sampler
returns the toward-zero-truncated integer mean of exactly those B raw
values. -/
theorem sampler_batch_mean :
    (∀ (raws : Nat → Int) (B : Nat), 1 ≤ B →
        read_average raws B = Int.tdiv (((List.range B).map raws).sum) B) ∧
    (∀ e : Multi.Env, Multi.all_ready e = true →
        (Multi.loop e).filter Ev.isReadAvg =
          [Ev.readAvg 0 5, Ev.readAvg 1 5, Ev.readAvg 2 5, Ev.readAvg 3 5]) ∧
    (∀ (f : ℚ) (e : Single.Env), e.ready = true →
        (Single.loop f e).2.filter Ev.isReadAvg = [Ev.readAvg 0 10]) := by
  refine ⟨fun raws B _ => ?_, fun e h => ?_, fun f e h => ?_⟩
  · rw [read_average, readSum_eq_sum]
  · simp only [Multi.loop, h]; rfl
  · simp only [Single.loop, h]; rfl

/-- Witness for C2: batch of three raw values 6, 7, 9 averages to 7
(truncated), and the concrete environments perform one read per channel. -/
theorem sampler_batch_mean_witness :
    read_average (fun i => (6 + i : Int)) 3 =
      Int.tdiv (((List.range 3).map (fun i => (6 + i : Int))).sum) 3 ∧
    (Multi.loop env4all).filter Ev.isReadAvg =
      [Ev.readAvg 0 5, Ev.readAvg 1 5, Ev.readAvg 2 5, Ev.readAvg 3 5] ∧
    (Single.loop Single.calibration_factor env1ready).2.filter Ev.isReadAvg =
      [Ev.readAvg 0 10] :=
  ⟨sampler_batch_mean.1 (fun i => (6 + i : Int)) 3 (by decide),
   sampler_batch_mean.2.1 env4all (by decide),
   sampler_batch_mean.2.2 Single.calibration_factor env1ready rfl⟩

/-- Evaluating the 3-decimal float formatting at the exact value 4. -/
theorem printFloat_four : printFloat 4 3 = "4.000" := by
  simp only [printFloat, fracDigits]
  norm_num
  rfl

/-- Claim C3: the single-channel sketch emits raw / factor — a pure division,
modelled exactly over ℚ — formatted with exactly 3 decimal digits, and for
raw average 4000 with the sketch's calibration factor 1000 the emitted value
field is the string 4.000. -/
theorem single_channel_conversion_format :
    (∀ (f : ℚ) (e : Single.Env), e.ready = true →
        writes (Single.loop f e).2 =
          [toString e.millis, ",",
           printFloat ((read_average e.raws 10 : ℚ) / f) 3 ++ newline]) ∧
    (∀ e : Single.Env, e.ready = true → read_average e.raws 10 = 4000 →
        writes (Single.loop Single.calibration_factor e).2 =
          [toString e.millis, ",", "4.000" ++ newline]) ∧
    (∀ e : Single.Env, e.ready = true → read_average e.raws 10 = 4000 →
        e.millis = 77 →
        output (Single.loop Single.calibration_factor e).2 = "77,4.000" ++ newline) := by
  have base : ∀ (f : ℚ) (e : Single.Env), e.ready = true →
      writes (Single.loop f e).2 =
        [toString e.millis, ",",
         printFloat ((read_average e.raws 10 : ℚ) / f) 3 ++ newline] := by
    intro f e h
    simp only [Single.loop, h]
    rfl
  have scenario : ∀ e : Single.Env, e.ready = true → read_average e.raws 10 = 4000 →
      writes (Single.loop Single.calibration_factor e).2 =
        [toString e.millis, ",", "4.000" ++ newline] := by
    intro e h h4
    rw [base Single.calibration_factor e h, h4]
    have hv : ((4000 : Int) : ℚ) / Single.calibration_factor = 4 := by
      norm_num [Single.calibration_factor]
    rw [hv, printFloat_four]
  refine ⟨base, scenario, fun e h h4 hm => ?_⟩
  simp only [output, scenario e h h4, hm]
  rfl

/-- Witness for C3 at a concrete ready environment whose raw conversions all
equal 4000. -/
theorem single_channel_conversion_format_witness :
    writes (Single.loop Single.calibration_factor env1ready).2 =
      [toString env1ready.millis, ",", "4.000" ++ newline] ∧
    output (Single.loop Single.calibration_factor env1ready).2 = "77,4.000" ++ newline :=
  ⟨single_channel_conversion_format.2.1 env1ready rfl (by decide),
   single_channel_conversion_format.2.2 env1ready rfl (by decide) rfl⟩

/-- Claim C4: every emitted data line is timestamp first, then one field per
channel in ascending channel order, comma-separated and newline-terminated;
the same shape holds for every environment, and with raw averages
100, 200, 300, 400 the multi-channel line is timestamp,100,200,300,400. -/
theorem frame_field_order :
    (∀ e : Multi.Env, Multi.all_ready e = true →
        writes (Multi.loop e) =
          [toString e.millis, ",", toString (read_average (e.raws 0) 5),
           ",", toString (read_average (e.raws 1) 5),
           ",", toString (read_average (e.raws 2) 5),
           ",", toString (read_average (e.raws 3) 5), newline]) ∧
    (∀ e : Multi.Env, Multi.all_ready e = true →
        read_average (e.raws 0) 5 = 100 → read_average (e.raws 1) 5 = 200 →
        read_average (e.raws 2) 5 = 300 → read_average (e.raws 3) 5 = 400 →
        writes (Multi.loop e) =
          [toString e.millis, ",", "100", ",", "200", ",", "300", ",", "400", newline]) ∧
    (∀ e : Multi.Env, Multi.all_ready e = true →
        read_average (e.raws 0) 5 = 100 → read_average (e.raws 1) 5 = 200 →
        read_average (e.raws 2) 5 = 300 → read_average (e.raws 3) 5 = 400 →
        e.millis = 12345 →
        output (Multi.loop e) = "12345,100,200,300,400" ++ newline) ∧
    (∀ (f : ℚ) (e : Single.Env), e.ready = true →
        writes (Single.loop f e).2 =
          [toString e.millis, ",",
           printFloat ((read_average e.raws 10 : ℚ) / f) 3 ++ newline]) := by
  have base : ∀ e : Multi.Env, Multi.all_ready e = true →
      writes (Multi.loop e) =
        [toString e.millis, ",", toString (read_average (e.raws 0) 5),
         ",", toString (read_average (e.raws 1) 5),
         ",", toString (read_average (e.raws 2) 5),
         ",", toString (read_average (e.raws 3) 5), newline] := by
    intro e h
    simp only [Multi.loop, h]
    rfl
  have scenario : ∀ e : Multi.Env, Multi.all_ready e = true →
      read_average (e.raws 0) 5 = 100 → read_average (e.raws 1) 5 = 200 →
      read_average (e.raws 2) 5 = 300 → read_average (e.raws 3) 5 = 400 →
      writes (Multi.loop e) =
        [toString e.millis, ",", "100", ",", "200", ",", "300", ",", "400", newline] := by
    intro e h h1 h2 h3 h4
    rw [base e h, h1, h2, h3, h4]
    rfl
  refine ⟨base, scenario, fun e h h1 h2 h3 h4 hm => ?_, fun f e h => ?_⟩
  · simp only [output, scenario e h h1 h2 h3 h4, hm]
    rfl
  · simp only [Single.loop, h]
    rfl

/-- Witness for C4 at the concrete all-ready environment with averages
100, 200, 300, 400 and millis 12345. -/
theorem frame_field_order_witness :
    output (Multi.loop env4all) = "12345,100,200,300,400" ++ newline ∧
    writes (Single.loop Single.calibration_factor env1ready).2 =
      [toString env1ready.millis, ",",
       printFloat ((read_average env1ready.raws 10 : ℚ) / Single.calibration_factor) 3
         ++ newline] :=
  ⟨frame_field_order.2.2.1 env4all (by decide) (by decide) (by decide) (by decide)
      (by decide) rfl,
   frame_field_order.2.2.2 Single.calibration_factor env1ready rfl⟩

/-- Claim C5: the startup sequence runs exactly once, strictly before the
first loop iteration, in the order bind pins → stabilization delay (1000 ms
single-channel, 2000 ms multi-channel) → tare every channel → exactly one
fixed header row, and the header is the first thing written in any run. -/
theorem startup_sequence :
    (∀ (f : ℚ) (es : List Single.Env),
        (Single.run f es).take 5 = Single.setup ∧
        (Single.run f es).countP Ev.isBeginPins = 1 ∧
        (writes (Single.run f es)).head? = some ("millis,grams" ++ newline)) ∧
    (Single.setup.filter Ev.isBeginPins = [Ev.beginPins 0 8 9] ∧
     Single.setup.filter Ev.isDelay = [Ev.delayMs 1000] ∧
     Single.setup.filter Ev.isTare = [Ev.tare 0] ∧
     writes Single.setup = ["millis,grams" ++ newline] ∧
     Single.setup.findIdx Ev.isBeginPins < Single.setup.findIdx Ev.isDelay ∧
     Single.setup.findIdx Ev.isDelay < Single.setup.findIdx Ev.isTare ∧
     Single.setup.findIdx Ev.isTare < Single.setup.findIdx Ev.isWrite) ∧
    (∀ es : List Multi.Env,
        (Multi.run es).take 11 = Multi.setup ∧
        (Multi.run es).countP Ev.isBeginPins = 4 ∧
        (writes (Multi.run es)).head? =
          some ("millis,raw_ch1,raw_ch2,raw_ch3,raw_ch4" ++ newline)) ∧
    (Multi.setup.filter Ev.isBeginPins =
        [Ev.beginPins 0 2 3, Ev.beginPins 1 4 5, Ev.beginPins 2 6 7, Ev.beginPins 3 8 9] ∧
     Multi.setup.filter Ev.isDelay = [Ev.delayMs 2000] ∧
     Multi.setup.filter Ev.isTare = [Ev.tare 0, Ev.tare 1, Ev.tare 2, Ev.tare 3] ∧
     writes Multi.setup = ["millis,raw_ch1,raw_ch2,raw_ch3,raw_ch4" ++ newline] ∧
     Multi.setup.findIdx Ev.isBeginPins < Multi.setup.findIdx Ev.isDelay ∧
     Multi.setup.findIdx Ev.isDelay < Multi.setup.findIdx Ev.isTare ∧
     Multi.setup.findIdx Ev.isTare < Multi.setup.findIdx Ev.isWrite) := by
  refine ⟨fun f es => ⟨?_, ?_, ?_⟩, by constructor <;> first | rfl | (constructor <;> first | rfl | (constructor <;> first | rfl | (constructor <;> first | rfl | decide))),
    fun es => ⟨?_, ?_, ?_⟩, by constructor <;> first | rfl | (constructor <;> first | rfl | (constructor <;> first | rfl | (constructor <;> first | rfl | decide)))⟩
  · rw [Single.run, show 5 = Single.setup.length from rfl]
    exact List.take_left Single.setup _
  · rw [Single.run, List.countP_append,
      countP_flatten_zero Ev.isBeginPins _ (by
        intro l hl
        simp only [List.mem_map] at hl
        obtain ⟨e, _, he⟩ := hl
        rw [← he]
        exact single_loop_no_begin f e)]
    rfl
  · rw [Single.run, writes_append]
    rfl
  · rw [Multi.run, show 11 = Multi.setup.length from rfl]
    exact List.take_left Multi.setup _
  · rw [Multi.run, List.countP_append,
      countP_flatten_zero Ev.isBeginPins _ (by
        intro l hl
        simp only [List.mem_map] at hl
        obtain ⟨e, _, he⟩ := hl
        rw [← he]
        exact multi_loop_no_begin e)]
    rfl
  · rw [Multi.run, writes_append]
    rfl

/-- Witness for C5 on concrete one-iteration runs. -/
theorem startup_sequence_witness :
    (Single.run Single.calibration_factor [env1ready]).take 5 = Single.setup ∧
    (writes (Multi.run [env4all])).head? =
      some ("millis,raw_ch1,raw_ch2,raw_ch3,raw_ch4" ++ newline) :=
  ⟨(startup_sequence.1 Single.calibration_factor [env1ready]).1,
   (startup_sequence.2.2.1 [env4all]).2.2⟩

/-- Counterexample to C6 as stated: with a zero calibration factor and a
ready channel, the single-channel iteration does not fail — it still
performs its three serial writes and emits a nonempty line (over the exact
rationals the division-by-zero convention yields a value; in IEEE float
semantics the sketch would likewise emit, printing Inf/NaN). There is no
DivisionByZero-class error path in the code. -/
theorem factor_zero_still_emits :
    (Single.loop 0 env1ready).2.countP Ev.isWrite = 3 ∧
    (Single.loop 0 env1ready).2 ≠ [] := by
  constructor
  · rfl
  · intro h
    have h0 : (Single.loop 0 env1ready).2.countP Ev.isWrite = 3 := rfl
    rw [h] at h0
    exact absurd h0 (by decide)

/-- Amended C6: the code performs the division unconditionally — a zero
factor silently yields a garbage value rather than a DivisionByZero-class
error — but the single-channel sketch hardcodes the non-zero factor 1000.0,
so the only divisor the hot loop ever uses is 1000 and the zero-divisor case
is unreachable in the reference configuration. -/
theorem calibration_factor_nonzero :
    Single.calibration_factor = 1000 ∧ Single.calibration_factor ≠ 0 ∧
    (∀ e : Single.Env, e.ready = true →
        writes (Single.loop Single.calibration_factor e).2 =
          [toString e.millis, ",",
           printFloat ((read_average e.raws 10 : ℚ) / 1000) 3 ++ newline]) := by
  refine ⟨rfl, by norm_num [Single.calibration_factor], fun e h => ?_⟩
  simp only [Single.loop, Single.calibration_factor, h]
  rfl

/-- Witness for the amended C6 at a concrete ready environment. -/
theorem calibration_factor_nonzero_witness :
    writes (Single.loop Single.calibration_factor env1ready).2 =
      [toString env1ready.millis, ",",
       printFloat ((read_average env1ready.raws 10 : ℚ) / 1000) 3 ++ newline] :=
  calibration_factor_nonzero.2.2 env1ready rfl

/-- Claim C7: the calibration state is established once at startup — the
stabilization delay precedes the tare — and is never mutated afterwards: a
loop iteration returns the calibration factor unchanged and performs no tare,
so a whole run tares exactly once per channel (once single-channel, four
times multi-channel). -/
theorem calibration_immutable :
    (∀ (f : ℚ) (e : Single.Env),
        (Single.loop f e).1 = f ∧ (Single.loop f e).2.countP Ev.isTare = 0) ∧
    (∀ e : Multi.Env, (Multi.loop e).countP Ev.isTare = 0) ∧
    (∀ (f : ℚ) (es : List Single.Env), (Single.run f es).countP Ev.isTare = 1) ∧
    (∀ es : List Multi.Env, (Multi.run es).countP Ev.isTare = 4) ∧
    Single.setup.findIdx Ev.isDelay < Single.setup.findIdx Ev.isTare ∧
    Multi.setup.findIdx Ev.isDelay < Multi.setup.findIdx Ev.isTare := by
  refine ⟨fun f e => ⟨?_, single_loop_no_tare f e⟩, multi_loop_no_tare,
    fun f es => ?_, fun es => ?_, by decide, by decide⟩
  · cases h : e.ready <;> simp only [Single.loop, h] <;> rfl
  · rw [Single.run, List.countP_append,
      countP_flatten_zero Ev.isTare _ (by
        intro l hl
        simp only [List.mem_map] at hl
        obtain ⟨e, _, he⟩ := hl
        rw [← he]
        exact single_loop_no_tare f e)]
    rfl
  · rw [Multi.run, List.countP_append,
      countP_flatten_zero Ev.isTare _ (by
        intro l hl
        simp only [List.mem_map] at hl
        obtain ⟨e, _, he⟩ := hl
        rw [← he]
        exact multi_loop_no_tare e)]
    rfl

/-- Claim C8: the 50 ms pacing delay exists only in the multi-channel sketch;
no single-channel loop iteration ever delays — in a whole single-channel run
the only delay is the startup stabilization delay — while a multi-channel
frame-emitting iteration delays exactly 50 ms. -/
theorem pacing_delay_only_multi :
    (∀ (f : ℚ) (e : Single.Env), (Single.loop f e).2.countP Ev.isDelay = 0) ∧
    (∀ e : Multi.Env, Multi.all_ready e = true →
        (Multi.loop e).filter Ev.isDelay = [Ev.delayMs 50]) ∧
    (∀ (f : ℚ) (es : List Single.Env),
        ((Single.run f es).drop 5).countP Ev.isDelay = 0 ∧
        (Single.run f es).filter Ev.isDelay = [Ev.delayMs 1000]) := by
  refine ⟨single_loop_no_delay, fun e h => ?_, fun f es => ⟨?_, ?_⟩⟩
  · simp only [Multi.loop, h]
    rfl
  · rw [Single.run, show 5 = Single.setup.length from rfl, List.drop_left]
    exact countP_flatten_zero Ev.isDelay _ (by
      intro l hl
      simp only [List.mem_map] at hl
      obtain ⟨e, _, he⟩ := hl
      rw [← he]
      exact single_loop_no_delay f e)
  · rw [Single.run, List.filter_append]
    have hz : ((es.map (fun e => (Single.loop f e).2)).flatten).filter Ev.isDelay = [] := by
      rw [List.filter_eq_nil_iff]
      intro a ha
      rw [List.mem_flatten] at ha
      obtain ⟨l, hl, hal⟩ := ha
      simp only [List.mem_map] at hl
      obtain ⟨e, _, he⟩ := hl
      have h0 := single_loop_no_delay f e
      rw [List.countP_eq_zero] at h0
      exact h0 a (he ▸ hal)
    rw [hz]
    rfl

/-- Witness for C8 at the concrete all-ready multi-channel environment and a
concrete single-channel run. -/
theorem pacing_delay_only_multi_witness :
    (Multi.loop env4all).filter Ev.isDelay = [Ev.delayMs 50] ∧
    (Single.run Single.calibration_factor [env1ready]).filter Ev.isDelay =
      [Ev.delayMs 1000] :=
  ⟨pacing_delay_only_multi.2.1 env4all (by decide),
   (pacing_delay_only_multi.2.2 Single.calibration_factor [env1ready]).2⟩

/-- Claim C9: the timestamp capture point differs between the sketches — the
single-channel loop performs its 10-sample averaged read first (event 0) and
reads millis() only afterwards (event 1), while the multi-channel loop reads
millis() first (event 0) and writes it to the sink (event 1) before the first
of its four 5-sample reads (the earliest sampler event is at index 2). -/
theorem timestamp_capture_point :
    (∀ (f : ℚ) (e : Single.Env), e.ready = true →
        (Single.loop f e).2[0]? = some (Ev.readAvg 0 10) ∧
        (Single.loop f e).2.findIdx Ev.isReadMillis = 1 ∧
        (Single.loop f e).2.findIdx Ev.isReadAvg = 0) ∧
    (∀ e : Multi.Env, Multi.all_ready e = true →
        (Multi.loop e)[0]? = some Ev.readMillis ∧
        (Multi.loop e)[1]? = some (Ev.write (toString e.millis)) ∧
        (Multi.loop e).findIdx Ev.isReadAvg = 2 ∧
        (Multi.loop e).findIdx Ev.isReadMillis = 0) := by
  refine ⟨fun f e h => ?_, fun e h => ?_⟩
  · refine ⟨?_, ?_, ?_⟩ <;> (simp only [Single.loop, h]; rfl)
  · refine ⟨?_, ?_, ?_, ?_⟩ <;> (simp only [Multi.loop, h]; rfl)

/-- Witness for C9 at concrete ready environments. -/
theorem timestamp_capture_point_witness :
    (Single.loop Single.calibration_factor env1ready).2.findIdx Ev.isReadAvg = 0 ∧
    (Multi.loop env4all).findIdx Ev.isReadMillis = 0 :=
  ⟨(timestamp_capture_point.1 Single.calibration_factor env1ready rfl).2.2,
   (timestamp_capture_point.2 env4all (by decide)).2.2.2⟩

/-- Claim C10: the multi-channel 50 ms pacing delay runs only on iterations
that emit a Frame — a not-all-ready iteration returns before the delay,
producing no events, so readiness re-polls are unthrottled. -/
theorem delay_only_on_emitted_frames :
    (∀ e : Multi.Env, Multi.all_ready e = false → Multi.loop e = []) ∧
    (∀ e : Multi.Env,
        (Multi.loop e).countP Ev.isDelay = if Multi.all_ready e = true then 1 else 0) := by
  refine ⟨fun e h => ?_, fun e => ?_⟩
  · simp only [Multi.loop, h]
    rfl
  · cases h : Multi.all_ready e
    · simp only [Multi.loop, h]
      rfl
    · simp only [Multi.loop, h]
      rfl

/-- Witness for C10 at the partially ready and fully ready environments. -/
theorem delay_only_on_emitted_frames_witness :
    Multi.loop env4partial = [] ∧
    (Multi.loop env4partial).countP Ev.isDelay = 0 ∧
    (Multi.loop env4all).countP Ev.isDelay = 1 := by
  refine ⟨delay_only_on_emitted_frames.1 env4partial (by decide), ?_, ?_⟩
  · have h := delay_only_on_emitted_frames.2 env4partial
    rwa [show Multi.all_ready env4partial = false from rfl, if_neg (by decide)] at h
  · have h := delay_only_on_emitted_frames.2 env4all
    rwa [show Multi.all_ready env4all = true from rfl, if_pos rfl] at h
